import Mathlib

/-!
Verification development for the serving core of the proxy-inference-engine
repository. The definitions below are a shallow embedding of the C++ sources:

* `src/pie_core/include/page.hpp` and
  `src/pie_core/src/engine/page_allocator.cpp` (lock-free page pool,
  modelled sequentially: the Treiber stack of free-list nodes becomes a
  `List Nat` of page ids in stack order, head first, so "reachable from the
  free-list head" becomes list membership),
* `src/pie_core/src/ipc/request_writer.cpp` and
  `src/pie_core/src/ipc/response_writer.cpp` (shared-memory slot producers;
  in the sequential embedding a bounded CAS spin loop on a slot's state
  succeeds iff the slot is already in the expected state),
* `src/pie_core/src/ipc/request_reader.cpp` (slot consumer drain loop),
* `src/pie_core/src/engine/scheduler.cpp` (per-sequence output processing),
* `src/pie_core/src/logits_processors/*` and `src/pie_core/src/samplers/*`
  (factory selection of logit processors and samplers),
* `src/pie_core/src/sequence/sequence.cpp` (sequence length accessors).

Machine integers are modelled as `Nat`/`Int` (with explicit wrap-around where
a C++ cast makes overflow observable), floats as `ℚ` (the source only
compares them for exact equality against identity values), and fallible code
returns `Except String`.
-/

namespace PIE

/-! ## Page pool (`page.hpp`, `page_allocator.cpp`) -/

/-- Mutable per-page state of `KVPage` (`page.hpp`): the atomic `ref_count_`
and `num_tokens_` fields. The tensor buffers and the immutable geometry
(`num_heads_`, `head_dim_`) play no role in the claims and are omitted. -/
structure KVPage where
  ref_count : Nat
  num_tokens : Nat
  deriving DecidableEq, Repr

/-- State of `PageAllocator` (`page_allocator.cpp`): the page pool, the
Treiber stack of free-list nodes (node for page `p` is `node_pool_[p]`, so a
stack of nodes is a list of page ids, head first), and the atomic free
counter. `pages` is a total function; ids `≥ num_pages` are rejected by
`check_page_id` before any access, mirroring the bounds check. -/
structure PageAllocator where
  num_pages : Nat
  pages : Nat → KVPage
  free_list : List Nat
  num_free_pages : Nat

/-- Freshly constructed pool (`PageAllocator::PageAllocator`): all ref counts
zero, node `i` linked to node `i+1` with the head at node `0`, so the stack
reads `[0, 1, ..., N-1]`; the free counter starts at `N`. -/
def initState (num_pages : Nat) : PageAllocator :=
  { num_pages := num_pages
    pages := fun _ => { ref_count := 0, num_tokens := 0 }
    free_list := List.range num_pages
    num_free_pages := num_pages }

/-- Overwrite one page's mutable state. -/
def set_page (s : PageAllocator) (page_id : Nat) (pg : KVPage) : PageAllocator :=
  { s with pages := Function.update s.pages page_id pg }

/-- `PageAllocator::pop_free_list` (lines 209-242): pop the head node of the
Treiber stack; on success decrement `num_free_pages_`. Returns the popped
node (identified by its page id) and the new state; `none` when the stack is
empty. -/
def pop_free_list (s : PageAllocator) : Option Nat × PageAllocator :=
  match s.free_list with
  | [] => (none, s)
  | h :: t => (some h, { s with free_list := t, num_free_pages := s.num_free_pages - 1 })

/-- `PageAllocator::push_free_list` (lines 182-206): push the node for
`page_id` onto the stack and increment `num_free_pages_`. -/
def push_free_list (s : PageAllocator) (page_id : Nat) : PageAllocator :=
  { s with free_list := page_id :: s.free_list
           num_free_pages := s.num_free_pages + 1 }

/-- `PageAllocator::allocate_page` (lines 85-102): pop a node; on success set
the page's `ref_count_` to 1 and its `num_tokens_` to 0 and return its id; on
an empty stack return `none`. -/
def allocate_page (s : PageAllocator) : Option Nat × PageAllocator :=
  match pop_free_list s with
  | (none, s') => (none, s')
  | (some page_id, s') => (some page_id, set_page s' page_id { ref_count := 1, num_tokens := 0 })

/-- `PageAllocator::free_page` (lines 104-125): bounds-check the id
(`check_page_id` throws `out_of_range`), then `KVPage::dec_ref` — whose
debug assertion `ref_count_ > 0` is the error branch for a double release —
and push the node back when the new count is 0. -/
def free_page (s : PageAllocator) (page_id : Nat) : Except String PageAllocator :=
  if page_id ≥ s.num_pages then
    .error "Page ID is out of range for pool size"
  else
    let rc := (s.pages page_id).ref_count
    if rc = 0 then
      .error "dec_ref on free page"
    else
      let s' := set_page s page_id { s.pages page_id with ref_count := rc - 1 }
      if rc - 1 = 0 then .ok (push_free_list s' page_id) else .ok s'

/-- `PageAllocator::add_ref` (lines 127-137): bounds-check, then
`KVPage::add_ref` — whose debug assertion `ref_count_ > 0` rejects
referencing a freed page — and increment the count. -/
def add_ref (s : PageAllocator) (page_id : Nat) : Except String PageAllocator :=
  if page_id ≥ s.num_pages then
    .error "Page ID is out of range for pool size"
  else if (s.pages page_id).ref_count = 0 then
    .error "add_ref on free page"
  else
    .ok (set_page s page_id
      { s.pages page_id with ref_count := (s.pages page_id).ref_count + 1 })

/-- `PageAllocator::get_num_free_pages` (lines 162-166). -/
def get_num_free_pages (s : PageAllocator) : Nat :=
  s.num_free_pages

/-- The free-stack / ref-count duality: a page's `ref_count` is 0 iff its
node is reachable from the free-list head (= the id occurs in the stack). -/
def Duality (s : PageAllocator) : Prop :=
  ∀ p, p < s.num_pages → ((s.pages p).ref_count = 0 ↔ p ∈ s.free_list)

/-- Pool states reachable from the freshly constructed pool by any sequence
of `allocate_page`, `free_page` and `add_ref` calls in which `free_page` and
`add_ref` are only invoked on pages whose current `ref_count` is positive
(the calls then return `.ok`; an interleaving of the lock-free operations is
modelled by its linearisation order). -/
inductive Reaches (N : Nat) : PageAllocator → Prop where
  | init : Reaches N (initState N)
  | alloc {s : PageAllocator} : Reaches N s → Reaches N (allocate_page s).2
  | free {s s' : PageAllocator} {p : Nat} : Reaches N s →
      0 < (s.pages p).ref_count → free_page s p = .ok s' → Reaches N s'
  | addref {s s' : PageAllocator} {p : Nat} : Reaches N s →
      0 < (s.pages p).ref_count → add_ref s p = .ok s' → Reaches N s'

/-- Auxiliary invariant carried through the induction for the duality claim:
the stack holds no duplicate nodes and only valid ids, besides the duality
itself. -/
def AllocInv (s : PageAllocator) : Prop :=
  s.free_list.Nodup ∧ (∀ p ∈ s.free_list, p < s.num_pages) ∧ Duality s

/-- `alloc_many k s` performs `k` successive `allocate_page` calls, returning
the allocated page ids in call order together with the final state (an
exhausted pop contributes no id). -/
def alloc_many : Nat → PageAllocator → List Nat × PageAllocator
  | 0, s => ([], s)
  | k + 1, s =>
    match allocate_page s with
    | (none, s') => ([], s')
    | (some page_id, s') =>
      let r := alloc_many k s'
      (page_id :: r.1, r.2)

/-- Fold `free_page` over a list of page ids, propagating the error (a thrown
exception in the C++) as `none`. -/
def free_many (s : PageAllocator) : List Nat → Option PageAllocator
  | [] => some s
  | p :: rest =>
    match free_page s p with
    | .ok s' => free_many s' rest
    | .error _ => none

/-- Pool state after the first `j` pages of a fresh pool of size `N` have
been allocated in stack order: pages `0..j-1` carry one reference, the stack
holds `[j, ..., N-1]`. Used as the induction hypothesis shape for reasoning
about allocation bursts. -/
def burstState (N j : Nat) : PageAllocator :=
  { num_pages := N
    pages := fun p => if p < j then { ref_count := 1, num_tokens := 0 }
                      else { ref_count := 0, num_tokens := 0 }
    free_list := List.range' j (N - j)
    num_free_pages := N - j }

/-- Invariant of the release phase: `pending` are the distinct, valid pages
still holding exactly one reference; everything else is at zero; the free
counter accounts for all non-pending pages. -/
def FreeingInv (N : Nat) (s : PageAllocator) (pending : List Nat) : Prop :=
  s.num_pages = N ∧ pending.Nodup ∧
  (∀ p ∈ pending, p < N ∧ (s.pages p).ref_count = 1) ∧
  (∀ p, p ∉ pending → (s.pages p).ref_count = 0) ∧
  s.num_free_pages + pending.length = N

/-! ## Sequence (`sequence.cpp`, `sequence.hpp`, `stop_criteria.hpp`) -/

/-- `SequenceStatus` (`sequence.hpp`). -/
inductive SequenceStatus where
  | WAITING
  | PREFILLING
  | DECODING
  | COMPLETED
  | ERROR
  deriving DecidableEq, Repr

/-- `StopCriteria` (`stop_criteria.hpp`): `int max_generated_tokens` (so an
`Int` here) and the stop-token list. -/
structure StopCriteria where
  max_generated_tokens : Int := 1024
  stop_token_ids : List Int := []
  deriving DecidableEq, Repr

/-- The fields of `Sequence` (`sequence.hpp`) the verified claims touch.
Token ids are `int32_t`, modelled as `Int` (no arithmetic is performed on
them). -/
structure Sequence where
  sequence_id : Nat
  status : SequenceStatus
  tokens : List Int
  prompt_len : Nat
  stop_criteria : StopCriteria
  cancelled : Bool
  deriving DecidableEq, Repr

/-- `Sequence::get_logical_len` (`sequence.cpp` lines 37-39). -/
def get_logical_len (seq : Sequence) : Nat :=
  seq.tokens.length

/-- `Sequence::get_generation_len` (`sequence.cpp` lines 41-43):
`tokens.size() > prompt_len ? tokens.size() - prompt_len : 0`. -/
def get_generation_len (seq : Sequence) : Nat :=
  if seq.tokens.length > seq.prompt_len then seq.tokens.length - seq.prompt_len else 0

/-! ## Scheduler per-sequence output processing (`scheduler.cpp`) -/

/-- Modelled from the spec: the `FinishReason` enum's declaration is not
among the provided sources (only its uses in `scheduler.cpp`,
`ipc_response.hpp` and `bindings.cpp` are); the spec lists the wire-stable
tags STOP, LENGTH, USER, MEMORY, TOOL_USE, INJECTION, matching the bindings. -/
inductive FinishReason where
  | STOP
  | LENGTH
  | USER
  | MEMORY
  | TOOL_USE
  | INJECTION
  deriving DecidableEq, Repr

/-- The delta payload the scheduler emits for one sampled token: the fields
of `PostprocessingData` (`response_postprocessor.hpp`), which coincide with
the fields the fallback path writes into a `ResponseDeltaSlot`. -/
structure DeltaOut where
  request_id : Nat
  next_token_id : Int
  is_final_delta : Bool
  finish_reason : FinishReason
  deriving DecidableEq, Repr

/-- Result of processing one sequence's slice of the batch output. -/
structure SeqStepResult where
  seq_status : SequenceStatus
  seq_tokens : List Int
  finished : Bool
  delta : DeltaOut
  deriving DecidableEq, Repr

/-- `static_cast<size_t>` of a C++ `int`: wrap into `[0, 2^64)`. -/
def castSizeT (i : Int) : Nat :=
  (i % (2 : Int) ^ 64).toNat

/-- Steps 4-7 of `Scheduler::process_batch_output` (`scheduler.cpp` lines
535-626) for one sequence, after a token has been sampled: append the token;
check the stop conditions — generation length against
`static_cast<size_t>(max_generated_tokens)` first, else scan
`stop_token_ids`, with `reason` defaulting to `STOP` (the cancelled flag is
not consulted; line 567 is a TODO) — build the postprocessing delta; if the
queue push fails, set status `ERROR`, force `finished`, and emit the fallback
delta directly; finally a finishing sequence becomes `COMPLETED` unless
already `ERROR`. `push_ok` abstracts `postprocessing_queue_.push` (`false` =
queue full); the returned delta is the one handed onward (queue payload or
fallback write). -/
def process_sequence_output (seq : Sequence) (next_token_id : Int) (push_ok : Bool) :
    SeqStepResult :=
  let seq1 : Sequence := { seq with tokens := seq.tokens ++ [next_token_id] }
  let lengthStop : Bool :=
    decide (get_generation_len seq1 ≥ castSizeT seq.stop_criteria.max_generated_tokens)
  let stopHit : Bool := seq.stop_criteria.stop_token_ids.contains next_token_id
  let finished0 : Bool := lengthStop || stopHit
  let reason : FinishReason := if lengthStop then .LENGTH else .STOP
  let ppDelta : DeltaOut :=
    { request_id := seq.sequence_id, next_token_id := next_token_id
      is_final_delta := finished0, finish_reason := reason }
  if push_ok then
    let status :=
      if finished0 then (if seq.status = .ERROR then .ERROR else .COMPLETED)
      else seq.status
    { seq_status := status, seq_tokens := seq1.tokens, finished := finished0
      delta := ppDelta }
  else
    { seq_status := .ERROR, seq_tokens := seq1.tokens, finished := true
      delta := { ppDelta with is_final_delta := true } }

/-! ## Logit processor factory (`logit_processor_factory.cpp`,
`logit_processor_registry.cpp`) -/

/-- `LogitsParams` (`logits_params.hpp`); the float penalties become `ℚ`
(the factory only compares them against their exact identity values) and the
bias map becomes an association list (only emptiness is inspected). -/
structure LogitsParams where
  frequency_penalty : ℚ := 0
  logit_bias : List (Int × ℚ) := []
  presence_penalty : ℚ := 0
  repetition_context_size : Int := 60
  repetition_penalty : ℚ := 1
  deriving DecidableEq, Repr

/-- The processor types registered at static-initialisation time: exactly the
two `LogitProcessorRegistrar` instances in `repetition_processor.cpp` and
`logit_bias_processor.cpp`. No translation unit registers a
`frequency_penalty` or `presence_penalty` processor. -/
def registered_logit_processors : List String :=
  ["repetition", "logit_bias"]

/-- `LogitProcessorRegistry::create_processor`
(`logit_processor_registry.cpp` lines 14-21): look the type up in the
registry; throw `Unsupported logit processor type` when absent. A created
processor is represented by its registry name. -/
def registry_create_processor (processor_type : String) : Except String String :=
  if registered_logit_processors.contains processor_type then
    .ok processor_type
  else
    .error ("Unsupported logit processor type: " ++ processor_type)

/-- `create_processors` (`logit_processor_factory.cpp` lines 13-37): append a
processor for each parameter away from its identity value, in the fixed
order repetition, frequency_penalty, presence_penalty, logit_bias; a failed
`create_processor` throw propagates. -/
def create_processors (params : LogitsParams) : Except String (List String) := do
  let mut processors : List String := []
  if params.repetition_penalty ≠ 1 then
    processors := processors ++ [← registry_create_processor "repetition"]
  if params.frequency_penalty ≠ 0 then
    processors := processors ++ [← registry_create_processor "frequency_penalty"]
  if params.presence_penalty ≠ 0 then
    processors := processors ++ [← registry_create_processor "presence_penalty"]
  if params.logit_bias ≠ [] then
    processors := processors ++ [← registry_create_processor "logit_bias"]
  return processors

/-! ## Samplers (`sampler_factory.cpp`, `greedy.cpp`, `categorical.hpp`) -/

/-- `SamplingParams` (`sampling_params.hpp`), floats as `ℚ`. -/
structure SamplingParams where
  temperature : ℚ := 1
  top_p : ℚ := 1
  top_k : Int := -1
  min_p : ℚ := 0
  rng_seed : Nat := 0
  deriving DecidableEq, Repr

/-- The two sampler types registered with `SamplerRegistry` (`greedy.cpp`,
`categorical.hpp`). -/
inductive SamplerKind where
  | greedy
  | categorical
  deriving DecidableEq, Repr

/-- `create_sampler` (`sampler_factory.cpp` lines 10-15): greedy exactly when
`temperature == 0.0f`, otherwise categorical. -/
def create_sampler (params : SamplingParams) : SamplerKind :=
  if params.temperature = 0 then .greedy else .categorical

/-- Scan remaining logits, keeping the index/value of the running maximum;
`i` is the index of the current list head in the full row. Strict `<` keeps
the earliest maximal index, matching `mx::argmax`. -/
def argmax_aux : List ℚ → Nat → Nat × ℚ → Nat × ℚ
  | [], _, best => best
  | x :: xs, i, best =>
    if best.2 < x then argmax_aux xs (i + 1) (i, x) else argmax_aux xs (i + 1) best

/-- `GreedySampler::next_token` (`greedy.cpp` lines 8-14): `mx::argmax` over
the logits row — the index of the (first) maximal logit. The row is never
empty (its width is the model's vocabulary size); `0` on `[]` is a junk
value. -/
def greedy_next_token (logits : List ℚ) : Nat :=
  match logits with
  | [] => 0
  | x :: xs => (argmax_aux xs 1 (0, x)).1

/-- `CategoricalSampler::next_token` (`categorical.hpp` lines 11-17) calls
`mx::random::categorical(logits)` on the raw logits row and ignores its
`SamplingParams` argument (an unnamed parameter). A categorical draw over
`softmax(logits)` can return every index of the row, since softmax of finite
logits is strictly positive; this definition records that support set. -/
def categorical_support (logits : List ℚ) (_params : SamplingParams) : List Nat :=
  List.range logits.length

/-- Modelled from the spec: "else categorical over the softmax (with
top-k/top-p/min-p truncation if configured)". Top-k truncation restricts the
draw to the `k` largest logits, so an index survives iff fewer than `k`
indices carry a strictly larger logit. Only stated to compare the spec's
truncated support with the code's; no truncation code exists in the
source. -/
def spec_top_k_support (k : Nat) (logits : List ℚ) : List Nat :=
  (List.range logits.length).filter
    (fun i => ((List.range logits.length).filter
      (fun j => logits.getD i 0 < logits.getD j 0)).length < k)

/-! ## IPC producers (`request_writer.cpp`, `response_writer.cpp`) -/

/-- `RequestState` (`ipc_request.hpp`). -/
inductive RequestState where
  | FREE
  | WRITING
  | READY
  | READING
  deriving DecidableEq, Repr

/-- `ResponseSlotState` (`ipc_response.hpp`). -/
inductive ResponseSlotState where
  | FREE_FOR_CPP_WRITER
  | CPP_WRITING
  | READY_FOR_PYTHON
  | PYTHON_READING
  deriving DecidableEq, Repr

/-- `REQUEST_QUEUE_NUM_SLOTS` (`ipc_request.hpp`). -/
def REQUEST_QUEUE_NUM_SLOTS : Nat := 1024

/-- `RESPONSE_QUEUE_NUM_SLOTS` (`ipc_response.hpp`). -/
def RESPONSE_QUEUE_NUM_SLOTS : Nat := 1024

/-- Producer-visible state of the request ring: the control block's
`producer_idx` and every slot's `state` atomic (payload fields are not
modelled; the claims only concern indices and states). -/
structure RequestQueueW where
  producer_idx : Nat
  slots : Nat → RequestState

/-- Producer-visible state of the response ring. -/
structure ResponseQueueW where
  producer_idx : Nat
  slots : Nat → ResponseSlotState

/-- Slot-claiming part of `RequestWriter::submit_request_to_engine`
(`request_writer.cpp` lines 224-262): `fetch_add` the producer index, spin
CASing the claimed slot `FREE → WRITING` (in this sequential embedding the
bounded spin succeeds iff the slot is already `FREE`), then fill the payload
and release-store `READY`. On timeout the code throws WITHOUT rolling the
producer index back, so the error state keeps the incremented index. -/
def submit_request_to_engine (q : RequestQueueW) : Except String Unit × RequestQueueW :=
  let ticket := q.producer_idx
  let q1 : RequestQueueW := { q with producer_idx := ticket + 1 }
  let slot_idx := ticket % REQUEST_QUEUE_NUM_SLOTS
  if q1.slots slot_idx = .FREE then
    (.ok (), { q1 with slots := Function.update q1.slots slot_idx .READY })
  else
    (.error "Timeout waiting for a free request slot. Engine might be stuck or queue full.", q1)

/-- Slot-claiming part of `ResponseWriter::write_delta`
(`response_writer.cpp` lines 110-228): `fetch_add` the producer index, spin
CASing the slot `FREE_FOR_CPP_WRITER → CPP_WRITING`; on timeout `fetch_sub`
the producer index back and throw; on success copy the delta and
release-store `READY_FOR_PYTHON`. The delta payload itself is not modelled
beyond being passed through. -/
def write_delta (q : ResponseQueueW) (_delta : DeltaOut) :
    Except String Unit × ResponseQueueW :=
  let ticket := q.producer_idx
  let q1 : ResponseQueueW := { q with producer_idx := ticket + 1 }
  let slot_idx := ticket % RESPONSE_QUEUE_NUM_SLOTS
  if q1.slots slot_idx = .FREE_FOR_CPP_WRITER then
    (.ok (), { q1 with slots := Function.update q1.slots slot_idx .READY_FOR_PYTHON })
  else
    (.error "Timeout waiting for a free response slot.",
     { q1 with producer_idx := q1.producer_idx - 1 })

/-! ## IPC request consumer (`request_reader.cpp`) -/

/-- Consumer-visible state of the request ring: both control-block indices
and the slot states. -/
structure ReaderState where
  producer_idx : Nat
  consumer_idx : Nat
  slots : Nat → RequestState

/-- Abstracts the two fallible collaborators of the drain loop, indexed by
the consumer ticket being processed: whether `read_prompt_string` succeeds,
and whether `output_queue_.push` finds room in the bounded SPSC queue. -/
structure ReaderEnv where
  prompt_read_ok : Nat → Bool
  queue_push_ok : Nat → Bool

/-- One iteration of the `while (cons != prod)` loop in
`RequestReader::process_incoming_requests` (`request_reader.cpp` lines
211-286): stop when caught up; CAS the slot `READY → READING` (stop if the
slot is not `READY`); on a prompt-read failure store `FREE` and `break`
(without advancing `consumer_idx`); on a full downstream queue store `FREE`
and `break` (again without advancing); on success store `FREE`, increment
the local `cons` and publish it. `stop` ends the drain, `next` continues. -/
inductive IterResult where
  | stop (st : ReaderState)
  | next (st : ReaderState)

/-- See `IterResult`. `prod` is the producer index acquired once at loop
entry. -/
def reader_iteration (env : ReaderEnv) (prod : Nat) (st : ReaderState) : IterResult :=
  if st.consumer_idx = prod then .stop st
  else
    let slot_idx := st.consumer_idx % REQUEST_QUEUE_NUM_SLOTS
    if st.slots slot_idx ≠ .READY then .stop st
    else
      let st1 : ReaderState := { st with slots := Function.update st.slots slot_idx .READING }
      if env.prompt_read_ok st.consumer_idx = false then
        .stop { st1 with slots := Function.update st1.slots slot_idx .FREE }
      else if env.queue_push_ok st.consumer_idx = false then
        .stop { st1 with slots := Function.update st1.slots slot_idx .FREE }
      else
        .next { st1 with slots := Function.update st1.slots slot_idx .FREE
                         consumer_idx := st.consumer_idx + 1 }

/-- Fuelled drain loop; each `next` advances `consumer_idx` by one, so
`prod - cons` iterations suffice for the `cons != prod` loop. -/
def reader_loop (env : ReaderEnv) (prod : Nat) : Nat → ReaderState → ReaderState
  | 0, st => st
  | fuel + 1, st =>
    match reader_iteration env prod st with
    | .stop st' => st'
    | .next st' => reader_loop env prod fuel st'

/-- `RequestReader::process_incoming_requests` (lines 211-286): acquire the
producer index once, then drain. -/
def process_incoming_requests (env : ReaderEnv) (st : ReaderState) : ReaderState :=
  reader_loop env st.producer_idx (st.producer_idx - st.consumer_idx) st

/-! ## Theorems -/

/-- C10: `get_generation_len` is total and never underflows: it returns
`tokens.size() - prompt_len` when `tokens.size() > prompt_len` and `0`
otherwise, so its result is always at most `tokens.size()`. -/
theorem c10_generation_len_total (seq : Sequence) :
    (seq.tokens.length > seq.prompt_len →
      get_generation_len seq = seq.tokens.length - seq.prompt_len) ∧
    (¬ seq.tokens.length > seq.prompt_len → get_generation_len seq = 0) ∧
    get_generation_len seq ≤ seq.tokens.length := by
  refine ⟨fun h => ?_, fun h => ?_, ?_⟩
  · simp [get_generation_len, h]
  · simp [get_generation_len, h]
  · unfold get_generation_len
    split
    · omega
    · omega

/-- Witness for C10 at a sequence whose tokens vector is shorter than its
`prompt_len`. -/
theorem c10_generation_len_total_witness :
    (¬ ([5] : List Int).length > 3 → get_generation_len
      { sequence_id := 0, status := .WAITING, tokens := [5], prompt_len := 3
        stop_criteria := {}, cancelled := false } = 0) ∧
    get_generation_len
      { sequence_id := 0, status := .WAITING, tokens := [5], prompt_len := 3
        stop_criteria := {}, cancelled := false } ≤ 1 :=
  ⟨(c10_generation_len_total
     { sequence_id := 0, status := .WAITING, tokens := [5], prompt_len := 3
       stop_criteria := {}, cancelled := false }).2.1,
   (c10_generation_len_total
     { sequence_id := 0, status := .WAITING, tokens := [5], prompt_len := 3
       stop_criteria := {}, cancelled := false }).2.2⟩

/-- C4: calling `free_page` on a valid page id whose page already has
`ref_count == 0` takes the error branch (the `dec_ref` assertion on a free
page), rather than silently decrementing the count or re-pushing the page
onto the free list: the call returns the error and produces no new state. -/
theorem c4_double_release_hard_fail (s : PageAllocator) (p : Nat)
    (hp : p < s.num_pages) (h0 : (s.pages p).ref_count = 0) :
    free_page s p = .error "dec_ref on free page" := by
  unfold free_page
  rw [if_neg (by omega)]
  simp [h0]

/-- Witness for C4: double release of page 0 in a fresh pool of size 1. -/
theorem c4_double_release_hard_fail_witness :
    0 < (initState 1).num_pages ∧ ((initState 1).pages 0).ref_count = 0 ∧
    free_page (initState 1) 0 = .error "dec_ref on free page" :=
  ⟨by decide, by decide, c4_double_release_hard_fail (initState 1) 0 (by decide) (by decide)⟩

/-- C1: for every pool state, `allocate_page` either pops the head node of
the free stack, sets that page's `ref_count` to 1 and its `num_tokens` to 0,
and returns that node's page id — leaving everything else as it was except
for the free counter — or, when the free stack is empty, returns `none` and
leaves the pool unchanged. -/
theorem c1_allocate_page_spec (s : PageAllocator) :
    (s.free_list = [] → allocate_page s = (none, s)) ∧
    (∀ h t, s.free_list = h :: t →
      allocate_page s =
        (some h,
         { num_pages := s.num_pages
           pages := Function.update s.pages h { ref_count := 1, num_tokens := 0 }
           free_list := t
           num_free_pages := s.num_free_pages - 1 })) := by
  constructor
  · intro hnil
    simp [allocate_page, pop_free_list, hnil]
  · intro h t hcons
    simp [allocate_page, pop_free_list, hcons, set_page]

theorem allocInv_initState (N : Nat) : AllocInv (initState N) := by
  refine ⟨List.nodup_range N, ?_, ?_⟩
  · intro p hp
    simpa [initState] using List.mem_range.mp (by simpa [initState] using hp)
  · intro p hp
    simp [initState, List.mem_range]
    exact hp

theorem allocInv_allocate {s : PageAllocator} (hinv : AllocInv s) :
    AllocInv (allocate_page s).2 := by
  obtain ⟨hnd, hbound, hdual⟩ := hinv
  cases hfl : s.free_list with
  | nil =>
    simpa [allocate_page, pop_free_list, hfl] using ⟨hnd, hbound, hdual⟩
  | cons h t =>
    rw [hfl] at hnd
    have hht : h ∉ t := (List.nodup_cons.mp hnd).1
    have hhN : h < s.num_pages := hbound h (by rw [hfl]; exact List.mem_cons_self h t)
    simp only [allocate_page, pop_free_list, hfl, set_page]
    refine ⟨(List.nodup_cons.mp hnd).2, ?_, ?_⟩
    · intro p hp
      exact hbound p (by rw [hfl]; exact List.mem_cons_of_mem h hp)
    · intro p hp
      by_cases hph : p = h
      · subst hph
        simp [Function.update_same]
        exact hht
      · simp only [Function.update_noteq hph]
        rw [hdual p hp, hfl]
        simp [List.mem_cons, hph]

theorem allocInv_free_page {s s' : PageAllocator} {p : Nat} (hinv : AllocInv s)
    (hok : free_page s p = .ok s') : AllocInv s' := by
  obtain ⟨hnd, hbound, hdual⟩ := hinv
  simp only [free_page] at hok
  split_ifs at hok with h1 h2 h3
  · -- new count is zero: the node is pushed back onto the stack
    have hpN : p < s.num_pages := by omega
    have hnotmem : p ∉ s.free_list := by
      intro hmem
      exact h2 ((hdual p hpN).mpr hmem)
    injection hok with hok
    subst hok
    refine ⟨?_, ?_, ?_⟩
    · exact List.nodup_cons.mpr ⟨hnotmem, hnd⟩
    · intro q hq
      simp only [push_free_list, set_page] at hq ⊢
      rcases List.mem_cons.mp hq with rfl | hq'
      · exact hpN
      · exact hbound q hq'
    · intro q hq
      simp only [push_free_list, set_page] at hq ⊢
      by_cases hqp : q = p
      · subst hqp
        simp [Function.update_same, h3, List.mem_cons]
      · simp [Function.update_noteq hqp, List.mem_cons, hqp]
        exact hdual q hq
  · -- count still positive: free list untouched
    have hpN : p < s.num_pages := by omega
    have hnotmem : p ∉ s.free_list := by
      intro hmem
      exact h2 ((hdual p hpN).mpr hmem)
    injection hok with hok
    subst hok
    refine ⟨hnd, hbound, ?_⟩
    intro q hq
    simp only [set_page] at hq ⊢
    by_cases hqp : q = p
    · subst hqp
      simp [Function.update_same, h3]
      exact hnotmem
    · simp [Function.update_noteq hqp]
      exact hdual q hq

theorem allocInv_add_ref {s s' : PageAllocator} {p : Nat} (hinv : AllocInv s)
    (hok : add_ref s p = .ok s') : AllocInv s' := by
  obtain ⟨hnd, hbound, hdual⟩ := hinv
  simp only [add_ref] at hok
  split_ifs at hok with h1 h2
  have hpN : p < s.num_pages := by omega
  have hnotmem : p ∉ s.free_list := by
    intro hmem
    exact h2 ((hdual p hpN).mpr hmem)
  injection hok with hok
  subst hok
  refine ⟨hnd, hbound, ?_⟩
  intro q hq
  simp only [set_page] at hq ⊢
  by_cases hqp : q = p
  · subst hqp
    simp [Function.update_same]
    exact hnotmem
  · simp [Function.update_noteq hqp]
    exact hdual q hq

theorem allocInv_reaches {N : Nat} {s : PageAllocator} (h : Reaches N s) : AllocInv s := by
  induction h with
  | init => exact allocInv_initState N
  | alloc _ ih => exact allocInv_allocate ih
  | free _ _ hok ih => exact allocInv_free_page ih hok
  | addref _ _ hok ih => exact allocInv_add_ref ih hok

/-- C2: for every pool state reachable from the freshly constructed pool by
any interleaving of `allocate_page`, `free_page` and `add_ref` in which
`add_ref` and `free_page` are only invoked on pages with positive
`ref_count`, the duality holds at every operation boundary: a page's
`ref_count` is 0 iff its node is reachable from the free-list head. -/
theorem c2_refcount_free_stack_duality {N : Nat} {s : PageAllocator}
    (h : Reaches N s) : Duality s :=
  (allocInv_reaches h).2.2

/-- Witness for C2: the duality after one allocation from a fresh pool of
size 2. -/
theorem c2_refcount_free_stack_duality_witness :
    Duality (allocate_page (initState 2)).2 :=
  c2_refcount_free_stack_duality (Reaches.alloc Reaches.init)

theorem pageAllocator_ext {a b : PageAllocator} (h1 : a.num_pages = b.num_pages)
    (h2 : a.pages = b.pages) (h3 : a.free_list = b.free_list)
    (h4 : a.num_free_pages = b.num_free_pages) : a = b := by
  cases a
  cases b
  simp_all

theorem initState_eq_burst (N : Nat) : initState N = burstState N 0 := by
  refine pageAllocator_ext rfl ?_ ?_ rfl
  · funext p
    simp [initState, burstState]
  · simp [initState, burstState, List.range_eq_range']

theorem allocate_burst {N j : Nat} (h : j < N) :
    allocate_page (burstState N j) = (some j, burstState N (j + 1)) := by
  have hrange : List.range' j (N - j) = j :: List.range' (j + 1) (N - (j + 1)) := by
    rw [show N - j = (N - (j + 1)) + 1 by omega, List.range'_succ]
  have hpages : Function.update
      (fun p => if p < j then ({ ref_count := 1, num_tokens := 0 } : KVPage)
                else { ref_count := 0, num_tokens := 0 }) j
      ({ ref_count := 1, num_tokens := 0 } : KVPage)
      = fun p => if p < j + 1 then ({ ref_count := 1, num_tokens := 0 } : KVPage)
                 else { ref_count := 0, num_tokens := 0 } := by
    funext p
    by_cases hp : p = j
    · subst hp
      simp [Function.update_same, Nat.lt_succ_self]
    · rw [Function.update_noteq hp]
      by_cases hpj : p < j
      · simp [hpj, Nat.lt_succ_of_lt hpj]
      · have hpj1 : ¬ p < j + 1 := by omega
        simp [hpj, hpj1]
  simp only [allocate_page, pop_free_list, burstState, hrange, set_page]
  rw [Prod.mk.injEq]
  refine ⟨rfl, pageAllocator_ext rfl ?_ rfl ?_⟩
  · exact hpages
  · show N - j - 1 = N - (j + 1)
    omega

theorem alloc_many_burst (N : Nat) : ∀ k j, j + k ≤ N →
    alloc_many k (burstState N j) = (List.range' j k, burstState N (j + k)) := by
  intro k
  induction k with
  | zero =>
    intro j _
    simp [alloc_many]
  | succ k ih =>
    intro j h
    have hj : j < N := by omega
    have hstep := allocate_burst (N := N) (j := j) hj
    simp only [alloc_many, hstep, ih (j + 1) (by omega)]
    rw [Prod.mk.injEq]
    constructor
    · rw [List.range'_succ]
    · congr 1
      omega

theorem free_many_freeing {N : Nat} : ∀ (ids : List Nat) (s : PageAllocator)
    (pending : List Nat), FreeingInv N s pending → ids.Perm pending →
    ∃ s', free_many s ids = some s' ∧ s'.num_free_pages = N ∧
      ∀ p, (s'.pages p).ref_count = 0 := by
  intro ids
  induction ids with
  | nil =>
    intro s pending hinv hperm
    obtain rfl : pending = [] := List.perm_nil.mp hperm.symm
    obtain ⟨hN, _, _, hzero, hcount⟩ := hinv
    exact ⟨s, rfl, by simpa using hcount, fun p => hzero p (by simp)⟩
  | cons p rest ih =>
    intro s pending hinv hperm
    obtain ⟨hN, hnd, hpend, hzero, hcount⟩ := hinv
    obtain ⟨hpmem, hrest⟩ := List.cons_perm_iff_perm_erase.mp hperm
    obtain ⟨hpN, hrc⟩ := hpend p hpmem
    have hlen : 0 < pending.length := List.length_pos_of_mem hpmem
    have hfree : free_page s p =
        .ok (push_free_list (set_page s p { s.pages p with ref_count := 0 }) p) := by
      simp [free_page, hrc]
      omega
    refine ?_
    rw [free_many, hfree]
    apply ih _ (pending.erase p)
    · refine ⟨by simp [push_free_list, set_page, hN], hnd.erase p, ?_, ?_, ?_⟩
      · intro q hq
        obtain ⟨hqp, hqmem⟩ := (hnd.mem_erase_iff).mp hq
        obtain ⟨hqN, hqrc⟩ := hpend q hqmem
        refine ⟨hqN, ?_⟩
        simp [push_free_list, set_page, Function.update_noteq hqp]
        exact hqrc
      · intro q hq
        by_cases hqp : q = p
        · subst hqp
          simp [push_free_list, set_page, Function.update_same]
        · have hqmem : q ∉ pending := by
            intro hmem
            exact hq ((hnd.mem_erase_iff).mpr ⟨hqp, hmem⟩)
          simp [push_free_list, set_page, Function.update_noteq hqp]
          exact hzero q hqmem
      · have herase : (pending.erase p).length = pending.length - 1 :=
          List.length_erase_of_mem hpmem
        simp only [push_free_list, set_page, herase]
        omega
    · exact hrest

/-- C3: for every `K ≤ N` and every order of releases, allocating `K` pages
from a full pool of size `N` and then calling `free_page` exactly once on
each allocated page id, in any permutation, brings `get_num_free_pages` back
to `N` with every page's `ref_count` equal to 0. -/
theorem c3_alloc_free_restores_pool (N K : Nat) (ids : List Nat) (hK : K ≤ N)
    (hperm : ids.Perm (alloc_many K (initState N)).1) :
    ∃ s', free_many (alloc_many K (initState N)).2 ids = some s' ∧
      get_num_free_pages s' = N ∧ ∀ p, p < N → (s'.pages p).ref_count = 0 := by
  have hburst := alloc_many_burst N K 0 (by omega)
  rw [initState_eq_burst] at hperm ⊢
  rw [hburst] at hperm ⊢
  have hinv : FreeingInv N (burstState N (0 + K)) (List.range' 0 K) := by
    refine ⟨rfl, List.nodup_range' 0 K, ?_, ?_, ?_⟩
    · intro q hq
      have hqK : q < K := by
        have := List.mem_range'_1.mp hq
        omega
      refine ⟨by omega, ?_⟩
      simp only [burstState, Nat.zero_add]
      simp [hqK]
    · intro q hq
      have hqK : ¬ q < K := by
        intro hlt
        exact hq (List.mem_range'_1.mpr ⟨Nat.zero_le q, by omega⟩)
      simp only [burstState, Nat.zero_add]
      simp [hqK]
    · simp only [burstState, Nat.zero_add, List.length_range']
      omega
  obtain ⟨s', hrun, hfreecnt, hall⟩ := free_many_freeing ids _ _ hinv hperm
  exact ⟨s', hrun, hfreecnt, fun p _ => hall p⟩

/-- Witness for C3: allocate 2 pages of a 3-page pool and release them in
reversed order. -/
theorem c3_alloc_free_restores_pool_witness :
    2 ≤ 3 ∧ ([1, 0] : List Nat).Perm (alloc_many 2 (initState 3)).1 ∧
    ∃ s', free_many (alloc_many 2 (initState 3)).2 [1, 0] = some s' ∧
      get_num_free_pages s' = 3 ∧ ∀ p, p < 3 → (s'.pages p).ref_count = 0 :=
  ⟨by decide, by decide, c3_alloc_free_restores_pool 3 2 [1, 0] (by decide) (by decide)⟩

/-- Witness for C1: allocating from a fresh pool of size 2 pops page 0. -/
theorem c1_allocate_page_spec_witness :
    allocate_page (initState 2) =
      (some 0,
       { num_pages := 2
         pages := Function.update (initState 2).pages 0 { ref_count := 1, num_tokens := 0 }
         free_list := [1]
         num_free_pages := 1 }) :=
  (c1_allocate_page_spec (initState 2)).2 0 [1] rfl

/-- C5 counterexample: the claim fails on the request side. With every slot
occupied (not `FREE`), `submit_request_to_engine` times out, yet the
producer index after the failed call is 1, not its pre-call value 0 — the
request writer throws without rolling back its `fetch_add`. -/
theorem c5_counterexample_no_rollback_on_request_side :
    (submit_request_to_engine { producer_idx := 0, slots := fun _ => RequestState.READY }).1 =
      .error "Timeout waiting for a free request slot. Engine might be stuck or queue full." ∧
    (submit_request_to_engine
      { producer_idx := 0, slots := fun _ => RequestState.READY }).2.producer_idx ≠ 0 := by
  constructor
  · rfl
  · decide

/-- C5 amended: when the claimed slot never leaves its non-`FREE` state, both
producers fail with a timeout error, but only `write_delta` rolls the
producer index back to its pre-call value; `submit_request_to_engine` leaves
it incremented by one. -/
theorem c5_producer_timeout_rollback (rq : RequestQueueW) (wq : ResponseQueueW)
    (delta : DeltaOut)
    (hr : rq.slots (rq.producer_idx % REQUEST_QUEUE_NUM_SLOTS) ≠ .FREE)
    (hw : wq.slots (wq.producer_idx % RESPONSE_QUEUE_NUM_SLOTS) ≠ .FREE_FOR_CPP_WRITER) :
    (submit_request_to_engine rq).1 =
      .error "Timeout waiting for a free request slot. Engine might be stuck or queue full." ∧
    (submit_request_to_engine rq).2.producer_idx = rq.producer_idx + 1 ∧
    (write_delta wq delta).1 = .error "Timeout waiting for a free response slot." ∧
    (write_delta wq delta).2.producer_idx = wq.producer_idx := by
  refine ⟨?_, ?_, ?_, ?_⟩ <;>
    simp [submit_request_to_engine, write_delta, hr, hw]

/-- Witness for the amended C5 on concrete fully-occupied queues. -/
theorem c5_producer_timeout_rollback_witness :
    ({ producer_idx := 5, slots := fun _ => RequestState.WRITING } :
        RequestQueueW).slots (5 % REQUEST_QUEUE_NUM_SLOTS) ≠ .FREE ∧
    ({ producer_idx := 7, slots := fun _ => ResponseSlotState.CPP_WRITING } :
        ResponseQueueW).slots (7 % RESPONSE_QUEUE_NUM_SLOTS) ≠ .FREE_FOR_CPP_WRITER ∧
    ((submit_request_to_engine
        { producer_idx := 5, slots := fun _ => RequestState.WRITING }).1 =
      .error "Timeout waiting for a free request slot. Engine might be stuck or queue full." ∧
    (submit_request_to_engine
        { producer_idx := 5, slots := fun _ => RequestState.WRITING }).2.producer_idx = 5 + 1 ∧
    (write_delta { producer_idx := 7, slots := fun _ => ResponseSlotState.CPP_WRITING }
        { request_id := 0, next_token_id := 0, is_final_delta := false
          finish_reason := .STOP }).1 = .error "Timeout waiting for a free response slot." ∧
    (write_delta { producer_idx := 7, slots := fun _ => ResponseSlotState.CPP_WRITING }
        { request_id := 0, next_token_id := 0, is_final_delta := false
          finish_reason := .STOP }).2.producer_idx = 7) :=
  ⟨by decide, by decide,
   c5_producer_timeout_rollback
     { producer_idx := 5, slots := fun _ => RequestState.WRITING }
     { producer_idx := 7, slots := fun _ => ResponseSlotState.CPP_WRITING }
     { request_id := 0, next_token_id := 0, is_final_delta := false, finish_reason := .STOP }
     (by decide) (by decide)⟩

/-- C6 counterexample: two READY slots, and reading the prompt of the first
one fails. The consumer transitions slot 0 from READY to READING, stores it
back to FREE — but `consumer_idx` stays at 0 instead of advancing by one,
and the drain stops, leaving the READY slot 1 unconsumed: a dropped request
does block consumption of later READY slots. -/
theorem c6_counterexample_drop_does_not_advance :
    ({ producer_idx := 2, consumer_idx := 0, slots := fun _ => RequestState.READY } :
      ReaderState).slots 0 = .READY ∧
    (process_incoming_requests
      { prompt_read_ok := fun _ => false, queue_push_ok := fun _ => true }
      { producer_idx := 2, consumer_idx := 0, slots := fun _ => RequestState.READY }).consumer_idx
      = 0 ∧
    (process_incoming_requests
      { prompt_read_ok := fun _ => false, queue_push_ok := fun _ => true }
      { producer_idx := 2, consumer_idx := 0, slots := fun _ => RequestState.READY }).slots 0
      = .FREE ∧
    (process_incoming_requests
      { prompt_read_ok := fun _ => false, queue_push_ok := fun _ => true }
      { producer_idx := 2, consumer_idx := 0, slots := fun _ => RequestState.READY }).slots 1
      = .READY := by
  refine ⟨?_, ?_, ?_, ?_⟩ <;> decide

/-- C6 amended: whenever the consumer transitions a slot from READY to
READING, it always release-stores the slot back to FREE; but it advances
`consumer_idx` by exactly one only on the success path — when the prompt
read fails or the downstream RawRequest queue is full, the request is
dropped with the slot set FREE, `consumer_idx` unchanged, and the drain loop
stopped. -/
theorem c6_ready_slot_processing (env : ReaderEnv) (prod : Nat) (st : ReaderState)
    (hne : st.consumer_idx ≠ prod)
    (hready : st.slots (st.consumer_idx % REQUEST_QUEUE_NUM_SLOTS) = .READY) :
    reader_iteration env prod st =
      (if env.prompt_read_ok st.consumer_idx = false then
        .stop { st with slots := (Function.update st.slots (st.consumer_idx % REQUEST_QUEUE_NUM_SLOTS) .FREE) }
      else if env.queue_push_ok st.consumer_idx = false then
        .stop { st with slots := (Function.update st.slots (st.consumer_idx % REQUEST_QUEUE_NUM_SLOTS) .FREE) }
      else
        .next { st with slots := (Function.update st.slots (st.consumer_idx % REQUEST_QUEUE_NUM_SLOTS) .FREE), consumer_idx := st.consumer_idx + 1 }) := by
  simp only [reader_iteration, hne, hready, if_neg, ite_not]
  split_ifs with h1 h2 <;>
    simp_all [Function.update_idem]

/-- Witness for the amended C6: one READY slot whose prompt read fails. -/
theorem c6_ready_slot_processing_witness :
    (0 : Nat) ≠ 1 ∧
    ({ producer_idx := 1, consumer_idx := 0, slots := fun _ => RequestState.READY } :
      ReaderState).slots (0 % REQUEST_QUEUE_NUM_SLOTS) = .READY ∧
    reader_iteration { prompt_read_ok := fun _ => false, queue_push_ok := fun _ => true } 1
      { producer_idx := 1, consumer_idx := 0, slots := fun _ => RequestState.READY } =
      (if ({ prompt_read_ok := fun _ => false, queue_push_ok := fun _ => true } :
            ReaderEnv).prompt_read_ok 0 = false then
        IterResult.stop { producer_idx := 1, consumer_idx := 0, slots := (Function.update (fun _ => RequestState.READY) (0 % REQUEST_QUEUE_NUM_SLOTS) .FREE) }
      else if ({ prompt_read_ok := fun _ => false, queue_push_ok := fun _ => true } :
            ReaderEnv).queue_push_ok 0 = false then
        IterResult.stop { producer_idx := 1, consumer_idx := 0, slots := (Function.update (fun _ => RequestState.READY) (0 % REQUEST_QUEUE_NUM_SLOTS) .FREE) }
      else
        IterResult.next { producer_idx := 1, consumer_idx := 0 + 1, slots := (Function.update (fun _ => RequestState.READY) (0 % REQUEST_QUEUE_NUM_SLOTS) .FREE) }) :=
  ⟨by decide, by decide,
   c6_ready_slot_processing
     { prompt_read_ok := fun _ => false, queue_push_ok := fun _ => true } 1
     { producer_idx := 1, consumer_idx := 0, slots := fun _ => RequestState.READY }
     (by decide) (by decide)⟩

/-- C7 counterexample: a decoding sequence whose `cancelled` flag is set,
whose generation length stays below `max_generated_tokens`, and whose
sampled token is no stop token, does NOT finish in this step (and in
particular gets no USER-reason final delta): the output-processing code
never consults the cancelled flag (`scheduler.cpp` line 567 is a TODO). -/
theorem c7_counterexample_cancelled_ignored :
    ({ sequence_id := 1, status := .DECODING, tokens := [5], prompt_len := 1
       stop_criteria := { max_generated_tokens := 5, stop_token_ids := [] }
       cancelled := true } : Sequence).cancelled = true ∧
    (process_sequence_output
      { sequence_id := 1, status := .DECODING, tokens := [5], prompt_len := 1
        stop_criteria := { max_generated_tokens := 5, stop_token_ids := [] }
        cancelled := true } 7 true).finished = false ∧
    (process_sequence_output
      { sequence_id := 1, status := .DECODING, tokens := [5], prompt_len := 1
        stop_criteria := { max_generated_tokens := 5, stop_token_ids := [] }
        cancelled := true } 7 true).delta.is_final_delta = false ∧
    (process_sequence_output
      { sequence_id := 1, status := .DECODING, tokens := [5], prompt_len := 1
        stop_criteria := { max_generated_tokens := 5, stop_token_ids := [] }
        cancelled := true } 7 true).seq_status = .DECODING := by
  refine ⟨?_, ?_, ?_, ?_⟩ <;> decide

/-- C7 amended: after the sampled token is appended, the sequence finishes
exactly when the generated length reaches `max_generated_tokens` (reason
LENGTH, checked first), or the sampled token is a stop token (reason STOP),
or the delta push failed (status forced to ERROR); the cancelled flag is not
consulted and reason USER is never produced here; the emitted delta's
`is_final_delta` always equals the finishing verdict, and a finishing
sequence's status becomes COMPLETED (or ERROR when the push failed). -/
theorem c7_stop_conditions (seq : Sequence) (next_token_id : Int) (push_ok : Bool) :
    (process_sequence_output seq next_token_id push_ok).finished =
      (decide (get_generation_len { seq with tokens := seq.tokens ++ [next_token_id] } ≥
          castSizeT seq.stop_criteria.max_generated_tokens) ||
        seq.stop_criteria.stop_token_ids.contains next_token_id || !push_ok) ∧
    (process_sequence_output seq next_token_id push_ok).delta.is_final_delta =
      (process_sequence_output seq next_token_id push_ok).finished ∧
    (process_sequence_output seq next_token_id push_ok).delta.finish_reason =
      (if get_generation_len { seq with tokens := seq.tokens ++ [next_token_id] } ≥
          castSizeT seq.stop_criteria.max_generated_tokens then .LENGTH else .STOP) ∧
    (process_sequence_output seq next_token_id push_ok).delta.finish_reason ≠ .USER ∧
    (process_sequence_output seq next_token_id push_ok).seq_status =
      (if push_ok then
        (if (process_sequence_output seq next_token_id push_ok).finished = true then
          (if seq.status = .ERROR then .ERROR else .COMPLETED)
        else seq.status)
      else .ERROR) := by
  by_cases hlen : get_generation_len { seq with tokens := seq.tokens ++ [next_token_id] } ≥
      castSizeT seq.stop_criteria.max_generated_tokens <;>
    cases push_ok <;>
      refine ⟨?_, ?_, ?_, ?_, ?_⟩ <;>
        simp [process_sequence_output, hlen]

/-- Witness for the amended C7 on a concrete decoding sequence. -/
theorem c7_stop_conditions_witness :
    (process_sequence_output
      { sequence_id := 1, status := .DECODING, tokens := [5], prompt_len := 1
        stop_criteria := { max_generated_tokens := 5, stop_token_ids := [] }
        cancelled := true } 7 true).finished =
      (decide (get_generation_len
          { sequence_id := 1, status := .DECODING, tokens := [5] ++ [7], prompt_len := 1
            stop_criteria := { max_generated_tokens := 5, stop_token_ids := [] }
            cancelled := true } ≥ castSizeT 5) ||
        List.contains [] 7 || !true) ∧
    (process_sequence_output
      { sequence_id := 1, status := .DECODING, tokens := [5], prompt_len := 1
        stop_criteria := { max_generated_tokens := 5, stop_token_ids := [] }
        cancelled := true } 7 true).delta.is_final_delta =
      (process_sequence_output
        { sequence_id := 1, status := .DECODING, tokens := [5], prompt_len := 1
          stop_criteria := { max_generated_tokens := 5, stop_token_ids := [] }
          cancelled := true } 7 true).finished ∧
    (process_sequence_output
      { sequence_id := 1, status := .DECODING, tokens := [5], prompt_len := 1
        stop_criteria := { max_generated_tokens := 5, stop_token_ids := [] }
        cancelled := true } 7 true).delta.finish_reason =
      (if get_generation_len
          { sequence_id := 1, status := .DECODING, tokens := [5] ++ [7], prompt_len := 1
            stop_criteria := { max_generated_tokens := 5, stop_token_ids := [] }
            cancelled := true } ≥ castSizeT 5 then .LENGTH else .STOP) ∧
    (process_sequence_output
      { sequence_id := 1, status := .DECODING, tokens := [5], prompt_len := 1
        stop_criteria := { max_generated_tokens := 5, stop_token_ids := [] }
        cancelled := true } 7 true).delta.finish_reason ≠ .USER ∧
    (process_sequence_output
      { sequence_id := 1, status := .DECODING, tokens := [5], prompt_len := 1
        stop_criteria := { max_generated_tokens := 5, stop_token_ids := [] }
        cancelled := true } 7 true).seq_status =
      (if true then
        (if (process_sequence_output
            { sequence_id := 1, status := .DECODING, tokens := [5], prompt_len := 1
              stop_criteria := { max_generated_tokens := 5, stop_token_ids := [] }
              cancelled := true } 7 true).finished = true then
          (if SequenceStatus.DECODING = .ERROR then .ERROR else .COMPLETED)
        else SequenceStatus.DECODING)
      else .ERROR) :=
  c7_stop_conditions
    { sequence_id := 1, status := .DECODING, tokens := [5], prompt_len := 1
      stop_criteria := { max_generated_tokens := 5, stop_token_ids := [] }
      cancelled := true } 7 true

/-- C8: the factory selects processors exactly for the parameters away from
their identity values, in the fixed order repetition, frequency-penalty,
presence-penalty, logit-bias — but construction FAILS for a non-identity
`frequency_penalty` or `presence_penalty`, because no translation unit
registers those processor types; only `repetition` and `logit_bias` exist
in the registry. -/
theorem c8_missing_penalty_processors :
    create_processors { frequency_penalty := 1 } =
      .error "Unsupported logit processor type: frequency_penalty" ∧
    create_processors { presence_penalty := 1 } =
      .error "Unsupported logit processor type: presence_penalty" ∧
    create_processors { repetition_penalty := 2, logit_bias := [(5, 1)] } =
      .ok ["repetition", "logit_bias"] ∧
    create_processors {} = .ok [] := by
  refine ⟨?_, ?_, ?_, ?_⟩ <;> rfl

/-- C9 counterexample: with `temperature = 1` and `top_k = 1` configured, the
selected sampler is the categorical one, but its draw ranges over every
index of the logits row — the support the spec's top-k truncation would
allow (only the largest logit's index) differs from the support of the
code's draw, so no top-k truncation is applied. -/
theorem c9_counterexample_no_truncation :
    create_sampler { temperature := 1, top_p := 1, top_k := 1, min_p := 0, rng_seed := 0 } =
      .categorical ∧
    spec_top_k_support 1 [0, 1] = [1] ∧
    categorical_support [0, 1]
      { temperature := 1, top_p := 1, top_k := 1, min_p := 0, rng_seed := 0 } = [0, 1] ∧
    categorical_support [0, 1]
      { temperature := 1, top_p := 1, top_k := 1, min_p := 0, rng_seed := 0 } ≠
      spec_top_k_support 1 [0, 1] := by
  refine ⟨?_, ?_, ?_, ?_⟩ <;> decide

theorem argmax_aux_val : ∀ (xs : List ℚ) (i : Nat) (b : Nat × ℚ),
    (argmax_aux xs i b).2 = xs.foldl max b.2 := by
  intro xs
  induction xs with
  | nil => intro i b; rfl
  | cons x xs ih =>
    intro i b
    rw [argmax_aux]
    by_cases hx : b.2 < x
    · rw [if_pos hx, ih]
      simp [max_eq_right (le_of_lt hx)]
    · rw [if_neg hx, ih]
      simp [max_eq_left (le_of_not_lt hx)]

theorem argmax_aux_idx : ∀ (xs : List ℚ) (i : Nat) (b : Nat × ℚ),
    ((argmax_aux xs i b).1 = b.1 ∧ (argmax_aux xs i b).2 = b.2) ∨
    ∃ j, j < xs.length ∧ (argmax_aux xs i b).1 = i + j ∧
      xs.getD j 0 = (argmax_aux xs i b).2 := by
  intro xs
  induction xs with
  | nil => intro i b; exact Or.inl ⟨rfl, rfl⟩
  | cons x xs ih =>
    intro i b
    rw [argmax_aux]
    by_cases hx : b.2 < x
    · rw [if_pos hx]
      rcases ih (i + 1) (i, x) with ⟨h1, h2⟩ | ⟨j, hj, h1, h2⟩
      · exact Or.inr ⟨0, by simp, by simpa using h1, by simpa using h2.symm⟩
      · refine Or.inr ⟨j + 1, by simpa using hj, ?_, ?_⟩
        · rw [h1]; omega
        · simpa using h2
    · rw [if_neg hx]
      rcases ih (i + 1) b with ⟨h1, h2⟩ | ⟨j, hj, h1, h2⟩
      · exact Or.inl ⟨h1, h2⟩
      · refine Or.inr ⟨j + 1, by simpa using hj, ?_, ?_⟩
        · rw [h1]; omega
        · simpa using h2

theorem foldl_max_bound : ∀ (xs : List ℚ) (b : ℚ),
    b ≤ xs.foldl max b ∧ ∀ a ∈ xs, a ≤ xs.foldl max b := by
  intro xs
  induction xs with
  | nil => intro b; exact ⟨le_refl b, by simp⟩
  | cons x xs ih =>
    intro b
    rw [List.foldl_cons]
    refine ⟨le_trans (le_max_left b x) (ih (max b x)).1, ?_⟩
    intro a ha
    rcases List.mem_cons.mp ha with rfl | ha'
    · exact le_trans (le_max_right b a) (ih (max b a)).1
    · exact (ih (max b x)).2 a ha'

/-- C9 amended: the sampler is the greedy one exactly when `temperature` is
0; the greedy sampler returns a valid index of the logits row carrying a
maximal logit; and the categorical sampler draws over the softmax of the raw
logits row with support on every index — the configured top-k/top-p/min-p
parameters are ignored, no truncation is applied. -/
theorem c9_sampler_selection (params : SamplingParams) (logits : List ℚ)
    (hne : logits ≠ []) :
    (create_sampler params = .greedy ↔ params.temperature = 0) ∧
    categorical_support logits params = List.range logits.length ∧
    greedy_next_token logits < logits.length ∧
    ∀ j, j < logits.length → logits.getD j 0 ≤ logits.getD (greedy_next_token logits) 0 := by
  refine ⟨?_, rfl, ?_⟩
  · constructor
    · intro h
      by_contra htemp
      simp [create_sampler, htemp] at h
    · intro h
      simp [create_sampler, h]
  · match logits, hne with
    | x :: xs, _ =>
      have hval := argmax_aux_val xs 1 (0, x)
      have hmax := foldl_max_bound xs x
      have hidx := argmax_aux_idx xs 1 (0, x)
      have hgr : greedy_next_token (x :: xs) = (argmax_aux xs 1 (0, x)).1 := rfl
      rcases hidx with ⟨h1, h2⟩ | ⟨j, hj, h1, h2⟩
      · -- the head is maximal
        have hx : (x :: xs).getD (greedy_next_token (x :: xs)) 0 = x := by
          rw [hgr, h1]
          rfl
        refine ⟨by rw [hgr, h1]; simp, ?_⟩
        intro k hk
        rw [hx]
        have hfold : xs.foldl max x = x := by
          rw [← hval, h2]
        match k with
        | 0 => exact le_refl x
        | k + 1 =>
          have hk' : k < xs.length := by simpa using hk
          have hmem : xs.getD k 0 ∈ xs := by
            rw [List.getD_eq_getElem xs 0 hk']
            exact List.getElem_mem hk'
          have := hmax.2 _ hmem
          rw [hfold] at this
          simpa using this
      · -- a later element is maximal
        have hx : (x :: xs).getD (greedy_next_token (x :: xs)) 0 = xs.foldl max x := by
          rw [hgr, h1]
          have : (x :: xs).getD (1 + j) 0 = xs.getD j 0 := by
            rw [Nat.add_comm]
            rfl
          rw [this, h2, hval]
        refine ⟨by rw [hgr, h1]; simp; omega, ?_⟩
        intro k hk
        rw [hx]
        match k with
        | 0 => exact (foldl_max_bound xs x).1
        | k + 1 =>
          have hk' : k < xs.length := by simpa using hk
          have hmem : xs.getD k 0 ∈ xs := by
            rw [List.getD_eq_getElem xs 0 hk']
            exact List.getElem_mem hk'
          simpa using hmax.2 _ hmem

/-- Witness for the amended C9 on a concrete non-empty logits row with a
default-temperature parameter set. -/
theorem c9_sampler_selection_witness :
    ([1, 3, 2] : List ℚ) ≠ [] ∧
    ((create_sampler {} = .greedy ↔ ({} : SamplingParams).temperature = 0) ∧
    categorical_support [1, 3, 2] {} = List.range ([1, 3, 2] : List ℚ).length ∧
    greedy_next_token [1, 3, 2] < ([1, 3, 2] : List ℚ).length ∧
    ∀ j, j < ([1, 3, 2] : List ℚ).length →
      ([1, 3, 2] : List ℚ).getD j 0 ≤
        ([1, 3, 2] : List ℚ).getD (greedy_next_token [1, 3, 2]) 0) :=
  ⟨by decide, c9_sampler_selection {} [1, 3, 2] (by decide)⟩

end PIE
